import Mathlib

/-!
Verification development for the `RestOC.Services` module (rest-oc-python).

The module is shallowly embedded: Python values are modelled by the
inductive `PyVal`, Python exceptions that the module can raise by `PyErr`,
and fallible Python code by `Except PyErr _`.  Strings passing through the
internal-key scheme are modelled as lists of characters.  The external
collaborators (the `requests` HTTP library and the stdlib `json`
encoder/decoder) are modelled at their boundary: an HTTP response carries
its body already decoded (the result of `json.loads` on the response
text), and the envelope serialization round trip is stated at the level of
the JSON object (dictionary) that `json.dumps` emits and `json.loads`
recovers, since the stdlib codec is the identity on such finite
dictionaries of JSON-representable values.
-/

set_option linter.unusedVariables false

/-- A Python value, as far as the Services module can observe one:
`None`, ints, bools, strings, lists, tuples, string-keyed dicts,
exception objects (with their `args` tuple) and `Effect` instances
(with their three optional attributes). -/
inductive PyVal where
  | none
  | int (n : Int)
  | bool (b : Bool)
  | str (s : String)
  | list (xs : List PyVal)
  | tuple (xs : List PyVal)
  | dict (kvs : List (String × PyVal))
  | exc (args : List PyVal)
  | effect (data error warning : Option PyVal)

/-- Exceptions the embedded code can raise.  `effectException` models the
module's own `EffectException` (which wraps one `Effect`); the others are
the Python built-ins the code can hit. -/
inductive PyErr where
  | valueError (args : List String)
  | keyError (key : String)
  | typeError (msg : String)
  | indexError (msg : String)
  | attributeError (name : String)
  | nameError (name : String)
  | effectException (data error warning : Option PyVal)

/-- The `Effect` result envelope: three attributes, each either absent or
set to a Python value (an attribute set to `None` by `fromDict` is present
with value `PyVal.none`, distinguishable from an absent attribute). -/
structure Effect where
  data : Option PyVal
  error : Option PyVal
  warning : Option PyVal

/-- Modelled from the spec: the error-code collaborator (`RestOC.Errors`,
whose source is not shipped under src/) is a table of named integer
constants; this layer only needs named integer identity, so the values
are arbitrary distinct integers. -/
def Errors.SERVICE_ACTION : Int := 100

/-- Modelled from the spec: named error-code constant. -/
def Errors.SERVICE_STATUS : Int := 101

/-- Modelled from the spec: named error-code constant. -/
def Errors.SERVICE_CONTENT_TYPE : Int := 102

/-- Modelled from the spec: named error-code constant. -/
def Errors.SERVICE_UNREACHABLE : Int := 103

/-- Modelled from the spec: named error-code constant. -/
def Errors.SERVICE_NOT_REGISTERED : Int := 104

/-- Modelled from the spec: named error-code constant. -/
def Errors.SERVICE_NO_SUCH_NOUN : Int := 105

/-- `Effect.__init__` (Services.py lines 333-392).  The `data` and
`warning` arguments are stored as given when not `None`; the `error`
argument is normalized by duck-typed dispatch in the source's branch
order: `int` (which in Python also captures `bool`), `str`, `tuple`
(indexing `error[0]`/`error[1]`, an `IndexError` on short tuples), `dict`
(stored as-is), `Exception` (an `Effect` in `args[0]` has its `error`
attribute copied through; otherwise `args[0]` becomes the code, and the
two-argument case hits the source's `dErr` slip, a `NameError`), and
anything else raises `ValueError('error')`. -/
def Effect.init (data error warning : PyVal) : Except PyErr Effect :=
  let dataF : Option PyVal := match data with | .none => Option.none | d => some d
  let warnF : Option PyVal := match warning with | .none => Option.none | w => some w
  match error with
  | .none => .ok ⟨dataF, Option.none, warnF⟩
  | .int n => .ok ⟨dataF, some (.dict [("code", .int n), ("msg", .str "")]), warnF⟩
  | .bool b => .ok ⟨dataF, some (.dict [("code", .bool b), ("msg", .str "")]), warnF⟩
  | .str s => .ok ⟨dataF, some (.dict [("code", .int 0), ("msg", .str s)]), warnF⟩
  | .tuple xs =>
    match xs with
    | x0 :: x1 :: _ => .ok ⟨dataF, some (.dict [("code", x0), ("msg", x1)]), warnF⟩
    | _ => .error (.indexError "tuple index out of range")
  | .dict kvs => .ok ⟨dataF, some (.dict kvs), warnF⟩
  | .exc args =>
    match args with
    | [] => .error (.indexError "tuple index out of range")
    | a0 :: rest =>
      match a0 with
      | .effect _ er _ =>
        match er with
        | some erv => .ok ⟨dataF, some erv, warnF⟩
        | Option.none => .error (.attributeError "error")
      | _ =>
        match rest with
        | [] => .ok ⟨dataF, some (.dict [("code", a0), ("msg", .str "")]), warnF⟩
        | _ => .error (.nameError "dErr")
  | _ => .error (.valueError ["error"])

/-- `Effect.__str__` (lines 394-419), up to the final `json.dumps`: the
JSON object it emits, containing exactly the attributes that are present,
in the source's insertion order `data`, `error`, `warning`. -/
def Effect.toDict (e : Effect) : List (String × PyVal) :=
  (match e.data with | some v => [("data", v)] | Option.none => []) ++
  (match e.error with | some v => [("error", v)] | Option.none => []) ++
  (match e.warning with | some v => [("warning", v)] | Option.none => [])

/-- `Effect.fromDict` (lines 443-472): start from an empty instance and
copy over whichever of the three keys the dictionary has; a missing key
(`KeyError`) leaves the attribute absent. -/
def Effect.fromDict (val : List (String × PyVal)) : Effect :=
  ⟨List.lookup "data" val, List.lookup "error" val, List.lookup "warning" val⟩

/-- `fromDict` as called on an arbitrary decoded JSON value: Python's
`val['data']` on a non-dict raises `TypeError`, which `fromDict` does not
catch. -/
def Effect.fromDictPy : PyVal → Except PyErr Effect
  | .dict kvs => .ok (Effect.fromDict kvs)
  | _ => .error (.typeError "value is not subscriptable by string keys")

/-- `Effect.fromJSON` (lines 474-493).  The argument is the outcome of the
stdlib `json.loads` on the input text (the decoded value, or the decoder's
message); a decode failure is re-raised as `ValueError('val', msg)`. -/
def Effect.fromJSON : Except String PyVal → Except PyErr Effect
  | .error msg => .error (.valueError ["val", msg])
  | .ok v => Effect.fromDictPy v

/-- Registry entry (`__mdRegistered[name]`): either `{"instance": v}` with
a locally loaded service (identified by its object identity) or
`{"url": u}` for a remote one (Services.py lines 264, 280). -/
inductive Registration where
  | inst (ident : Nat)
  | url (u : String)
deriving DecidableEq

/-- An HTTP response as the router observes it through the `requests`
library: the status code, the raw body (`content`), the response
`Content-Type` header when one is present (`headers['Content-Type']`
raises `KeyError` otherwise), and the outcome of the stdlib `json.loads`
on the body text. -/
structure HttpResponse where
  status_code : Int
  content : String
  contentTypeHeader : Option String
  body : Except String PyVal

/-- Outcome of an HTTP call: a response, or a `requests.ConnectionError`. -/
inductive HttpResult where
  | ok (r : HttpResponse)
  | connErr (msg : String)

/-- Python's `str.lower()` on the response content type, modelled
character-wise (ASCII lower-casing, which is all a MIME type needs). -/
def pyLower (s : String) : String :=
  ⟨s.data.map Char.toLower⟩

/-- `__funcToRequest` (lines 30-35), projected to the REST verb; the
transport function itself is a parameter of `request`. -/
def funcToRequest : String → Option String
  | "create" => some "POST"
  | "delete" => some "DELETE"
  | "read" => some "GET"
  | "update" => some "PUT"
  | _ => Option.none

/-- `__request` (lines 41-127), with verbose mode off.  Parameters:
`http` models the `requests` transport (verb, URL, payload, session
header); `dispatch` models `getattr(instance, action)(path, data, sesh)`
on a local instance.  Faithful behaviours of note:
* an unregistered service raises `EffectException` built from
  `(SERVICE_NOT_REGISTERED, service)` (line 127);
* for a remote service and an unknown action, line 78 constructs the
  `SERVICE_ACTION` effect but does not return it, so the later
  `__funcToRequest[action]` lookup at line 102 raises an uncaught
  `KeyError`;
* a non-200 status returns a `SERVICE_STATUS` effect whose message is
  `'%d: %s' % (status, content)`;
* a missing response `Content-Type` header raises an uncaught `KeyError`;
* a wrong content type returns a `SERVICE_CONTENT_TYPE` effect;
* a connection error returns a `SERVICE_UNREACHABLE` effect;
* otherwise the body is deserialized with `Effect.fromJSON`, whose
  `ValueError` on a malformed body propagates. -/
def request (http : String → String → PyVal → Option String → HttpResult)
    (dispatch : Nat → String → String → PyVal → Option String → Effect)
    (registry : List (String × Registration))
    (service action path : String) (data : PyVal) (sesh : Option String) :
    Except PyErr Effect :=
  match List.lookup service registry with
  | some (.inst i) => .ok (dispatch i action path data sesh)
  | some (.url u) =>
    -- line 78: `Effect(error=(Errors.SERVICE_ACTION, action))` is built and
    -- discarded when the action is unknown (no `return`/`raise`)
    let sURL := u ++ path
    match funcToRequest action with
    | Option.none => .error (.keyError action)
    | some verb =>
      match http verb sURL data sesh with
      | .connErr msg =>
        Effect.init .none (.tuple [.int Errors.SERVICE_UNREACHABLE, .str msg]) .none
      | .ok r =>
        if r.status_code ≠ 200 then
          Effect.init .none
            (.tuple [.int Errors.SERVICE_STATUS,
                     .str (toString r.status_code ++ ": " ++ r.content)]) .none
        else
          match r.contentTypeHeader with
          | Option.none => .error (.keyError "Content-Type")
          | some ct =>
            if pyLower ct ≠ "application/json; charset=utf-8" then
              Effect.init .none (.tuple [.int Errors.SERVICE_CONTENT_TYPE, .str ct]) .none
            else
              Effect.fromJSON r.body
  | Option.none =>
    match Effect.init .none (.tuple [.int Errors.SERVICE_NOT_REGISTERED, .str service]) .none with
    | .ok e => .error (.effectException e.data e.error e.warning)
    | .error pe => .error pe

/-- A value in the `services` dictionary passed to `register`: a local
`Service` instance (identified by object identity), `None` for a remote
service, or anything else (the invalid shape of line 287). -/
inductive SVal where
  | srv (ident : Nat)
  | none_
  | other
deriving DecidableEq

/-- The module-level mutable state `register` touches: the internal-key
salt `__msSalt` and the registry `__mdRegistered`. -/
structure RegState where
  salt : Option String
  registered : List (String × Registration)
deriving DecidableEq

/-- Python dict assignment `__mdRegistered[k] = r`: replace the binding if
the key exists, else append it. -/
def insertReg : List (String × Registration) → String → Registration →
    List (String × Registration)
  | [], k, r => [(k, r)]
  | (k', r') :: rest, k, r =>
    if k' = k then (k', r) :: rest else (k', r') :: insertReg rest k r

/-- The loop of `register` (lines 255-287).  Processes bindings one at a
time; mutations made before a `ValueError` persist (Python state is not
rolled back when an exception propagates).  For a local instance the entry
is stored and then `v.initialise()` is called: the call is recorded in the
returned trace (by the object identity it was made on), and its return
value — `initOf v` — is discarded, exactly as at line 270.  Returns the
final state, the trace of `initialise` calls, and the raised error if
any. -/
def registerLoop (initOf : Nat → Nat) (st : RegState) (trace : List Nat) :
    List (String × SVal) → List (String × String) →
    RegState × List Nat × Option PyErr
  | [], _ => (st, trace, Option.none)
  | (k, v) :: rest, restconf =>
    match v with
    | .srv i =>
      let st' : RegState := ⟨st.salt, insertReg st.registered k (.inst i)⟩
      let ignored := initOf i
      registerLoop initOf st' (trace ++ [i]) rest restconf
    | .none_ =>
      match List.lookup k restconf with
      | Option.none => (st, trace, some (.valueError ["services." ++ k]))
      | some u =>
        registerLoop initOf ⟨st.salt, insertReg st.registered k (.url u)⟩ trace rest restconf
    | .other => (st, trace, some (.valueError ["services." ++ k]))

/-- `register` (lines 228-287): the salt is stored process-wide first
(line 248, before any validation), then the bindings are processed in
order.  `services` is modelled as the association list of a Python dict,
so the `isinstance(services, dict)` guard of line 251 is always passed;
`restconf` values are the `{url}` entries, projected to the URL string. -/
def register (initOf : Nat → Nat) (st : RegState) (services : List (String × SVal))
    (restconf : List (String × String)) (salt : String) :
    RegState × List Nat × Option PyErr :=
  registerLoop initOf ⟨some salt, st.registered⟩ [] services restconf

/-- The scanning loop of `Service.pathToMethod` (lines 730-739): walk the
characters left to right; on `/` or `_` advance past the separator and
append the upper-cased following character (`path[i]` past the end raises
`IndexError`); any other character is appended unchanged. -/
def ptmScan : List Char → Except PyErr (List Char)
  | [] => .ok []
  | c :: cs =>
    if c = '/' ∨ c = '_' then
      match cs with
      | [] => .error (.indexError "string index out of range")
      | d :: ds => (ptmScan ds).map (fun r => d.toUpper :: r)
    else
      (ptmScan cs).map (fun r => c :: r)

/-- `Service.pathToMethod` (lines 717-740): the scanned name with `append`
concatenated at the end. -/
def pathToMethod (path append : String) : Except PyErr String :=
  (ptmScan path.data).map (fun l => String.mk l ++ append)

/-- Decimal printing of a natural number, the model of Python's
`str(int(time()))` for the internal key.  Fuel-indexed so that it is
structurally recursive and hence computes in the kernel; `natDigits`
supplies enough fuel. -/
def natDigitsAux : Nat → Nat → List Char
  | 0, _ => []
  | fuel + 1, n =>
    if n < 10 then [Nat.digitChar n]
    else natDigitsAux fuel (n / 10) ++ [Nat.digitChar (n % 10)]

/-- Decimal digits of `n`, most significant first (`str(n)` for `n ≥ 0`). -/
def natDigits (n : Nat) : List Char :=
  natDigitsAux (n + 1) n

/-- Python's `int(s)` restricted to the canonical all-digits strings the
key scheme produces: `some` of the value on a non-empty digit string,
`none` (a `ValueError`, which the validator catches) otherwise. -/
def digitsToNat? (l : List Char) : Option Nat :=
  if l = [] then Option.none
  else if l.all Char.isDigit then
    some (l.foldl (fun acc c => acc * 10 + (c.toNat - 48)) 0)
  else Option.none

/-- Python's `str.split(sep)` for a one-character separator. -/
def splitChar (sep : Char) : List Char → List (List Char)
  | [] => [[]]
  | c :: cs =>
    if c = sep then [] :: splitChar sep cs
    else
      match splitChar sep cs with
      | [] => [[c]]
      | p :: ps => (c :: p) :: ps

/-- The generation branch of `internalKey` (lines 181-190, `key=None`):
with `sTime = str(iTime)`, the token is
`H(sTime[5:] + salt + sTime[:5]) + ':' + sTime`, where `H` is the
`sha1(...).hexdigest()` primitive, kept as a parameter (its output is a
hex string, in particular colon-free). -/
def internalKeyGen (H : List Char → List Char) (salt : List Char) (iTime : Nat) :
    List Char :=
  let sTime := natDigits iTime
  H (sTime.drop 5 ++ salt ++ sTime.take 5) ++ [':'] ++ sTime

/-- The validation branch of `internalKey` (lines 193-210): split the key
on `':'` into digest and timestamp (any other shape is a caught
`ValueError`, returning `False`), reject if `now - int(sTime) > 5`, else
re-derive the digest over the embedded timestamp and compare.  All
failures return `False`; nothing is raised. -/
def internalKeyValidate (H : List Char → List Char) (salt : List Char)
    (iTime : Nat) (key : List Char) : Bool :=
  match splitChar ':' key with
  | [sSHA1V, sTime] =>
    match digitsToNat? sTime with
    | Option.none => false
    | some t =>
      if (iTime : Int) - (t : Int) > 5 then false
      else H (sTime.drop 5 ++ salt ++ sTime.take 5) == sSHA1V
  | _ => false

theorem natDigitsAux_stable : ∀ f n : Nat, n < f → natDigitsAux f n = natDigits n := by
  intro f
  induction f using Nat.strong_induction_on with
  | _ f ih =>
    intro n hn
    cases f with
    | zero => omega
    | succ f' =>
      by_cases h10 : n < 10
      · simp [natDigitsAux, natDigits, h10]
      · have hd : n / 10 < n := Nat.div_lt_self (by omega) (by omega)
        have e1 : natDigitsAux (f' + 1) n =
            natDigitsAux f' (n / 10) ++ [Nat.digitChar (n % 10)] := by
          simp [natDigitsAux, h10]
        have e2 : natDigits n = natDigitsAux n (n / 10) ++ [Nat.digitChar (n % 10)] := by
          simp [natDigits, natDigitsAux, h10]
        rw [e1, e2, ih f' (by omega) (n / 10) (by omega), ih n (by omega) (n / 10) (by omega)]

theorem natDigits_eq (n : Nat) :
    natDigits n = if n < 10 then [Nat.digitChar n]
      else natDigits (n / 10) ++ [Nat.digitChar (n % 10)] := by
  by_cases h10 : n < 10
  · simp [natDigits, natDigitsAux, h10]
  · have hd : n / 10 < n := Nat.div_lt_self (by omega) (by omega)
    have e2 : natDigits n = natDigitsAux n (n / 10) ++ [Nat.digitChar (n % 10)] := by
      simp [natDigits, natDigitsAux, h10]
    rw [e2, natDigitsAux_stable n (n / 10) hd, if_neg h10]

theorem digitChar_isDigit {n : Nat} (h : n < 10) : (Nat.digitChar n).isDigit = true := by
  interval_cases n <;> decide

theorem digitChar_sub48 {n : Nat} (h : n < 10) : (Nat.digitChar n).toNat - 48 = n := by
  interval_cases n <;> decide

theorem natDigits_all_digit (n : Nat) : ∀ c ∈ natDigits n, c.isDigit = true := by
  induction n using Nat.strong_induction_on with
  | _ n ih =>
    intro c hc
    rw [natDigits_eq] at hc
    by_cases h10 : n < 10
    · rw [if_pos h10] at hc
      simp only [List.mem_singleton] at hc
      exact hc ▸ digitChar_isDigit h10
    · rw [if_neg h10] at hc
      have hd : n / 10 < n := Nat.div_lt_self (by omega) (by omega)
      rcases List.mem_append.mp hc with h | h
      · exact ih (n / 10) hd c h
      · simp only [List.mem_singleton] at h
        exact h ▸ digitChar_isDigit (Nat.mod_lt _ (by omega))

theorem natDigits_ne_nil (n : Nat) : natDigits n ≠ [] := by
  rw [natDigits_eq]; split <;> simp

theorem natDigits_foldl (n : Nat) :
    ∀ a : Nat, (natDigits n).foldl (fun acc c => acc * 10 + (c.toNat - 48)) a =
      a * 10 ^ (natDigits n).length + n := by
  induction n using Nat.strong_induction_on with
  | _ n ih =>
    intro a
    rw [natDigits_eq]
    by_cases h10 : n < 10
    · rw [if_pos h10]
      simp [List.foldl, digitChar_sub48 h10]
    · rw [if_neg h10]
      have hd : n / 10 < n := Nat.div_lt_self (by omega) (by omega)
      rw [List.foldl_append, ih (n / 10) hd a]
      simp only [List.foldl, List.length_append, List.length_singleton]
      rw [digitChar_sub48 (Nat.mod_lt _ (by omega)), pow_succ]
      have hdm := Nat.div_add_mod n 10
      have hr : a * (10 ^ (natDigits (n / 10)).length * 10) =
          a * 10 ^ (natDigits (n / 10)).length * 10 := by ring
      rw [hr]
      omega

theorem digitsToNat_natDigits (n : Nat) : digitsToNat? (natDigits n) = some n := by
  unfold digitsToNat?
  rw [if_neg (natDigits_ne_nil n)]
  have hall : (natDigits n).all Char.isDigit = true := by
    rw [List.all_eq_true]
    intro c hc
    exact natDigits_all_digit n c hc
  rw [if_pos hall, natDigits_foldl n 0]
  simp

theorem splitChar_not_mem {sep : Char} : ∀ {l : List Char}, sep ∉ l →
    splitChar sep l = [l] := by
  intro l
  induction l with
  | nil => intro _; rfl
  | cons c cs ih =>
    intro h
    have hc : ¬ c = sep := fun e => h (by simp [e])
    have hcs : sep ∉ cs := fun hm => h (List.mem_cons_of_mem c hm)
    simp only [splitChar, if_neg hc, ih hcs]

theorem splitChar_append {sep : Char} {b : List Char} : ∀ {a : List Char}, sep ∉ a →
    splitChar sep (a ++ sep :: b) = a :: splitChar sep b := by
  intro a
  induction a with
  | nil => intro _; simp [splitChar]
  | cons c a' ih =>
    intro h
    have hc : ¬ c = sep := fun e => h (by simp [e])
    have ha : sep ∉ a' := fun hm => h (List.mem_cons_of_mem c hm)
    have hstep : splitChar sep ((c :: a') ++ sep :: b) =
        match splitChar sep (a' ++ sep :: b) with
        | [] => [[c]]
        | p :: ps => (c :: p) :: ps := by
      simp [splitChar, if_neg hc]
    rw [hstep, ih ha]

theorem natDigits_no_colon (n : Nat) : ':' ∉ natDigits n := by
  intro hm
  have := natDigits_all_digit n ':' hm
  exact absurd this (by decide)

theorem splitChar_key {H : List Char → List Char} (hH : ∀ s, ':' ∉ H s)
    (salt : List Char) (T : Nat) :
    splitChar ':' (internalKeyGen H salt T) =
      [H ((natDigits T).drop 5 ++ salt ++ (natDigits T).take 5), natDigits T] := by
  unfold internalKeyGen
  rw [List.append_assoc, List.singleton_append,
    splitChar_append (hH _), splitChar_not_mem (natDigits_no_colon T)]

/-- C6: for every shared secret and every generation time `T`, a token
produced by the generation branch of `internalKey` at time `T` is accepted
by the validation branch at any current time `T + d` with `0 ≤ d ≤ 5`, and
rejected at `T + 6`.  `H` is the `sha1(...).hexdigest()` primitive,
assumed (as a hex printer) to emit no `':'`. -/
theorem internalKey_window (H : List Char → List Char) (hH : ∀ s, ':' ∉ H s)
    (salt : List Char) (T d : Nat) (hd : d ≤ 5) :
    internalKeyValidate H salt (T + d) (internalKeyGen H salt T) = true ∧
    internalKeyValidate H salt (T + 6) (internalKeyGen H salt T) = false := by
  have hsplit := splitChar_key hH salt T
  constructor
  · simp only [internalKeyValidate, hsplit, digitsToNat_natDigits]
    rw [if_neg (by push_cast; omega)]
    simp
  · simp only [internalKeyValidate, hsplit, digitsToNat_natDigits]
    rw [if_pos (by push_cast; omega)]

/-- C6 witness: the window law at a concrete secret, hash and time. -/
theorem internalKey_window_witness :
    internalKeyValidate (fun _ => ['h']) ['s'] (1700000000 + 5)
        (internalKeyGen (fun _ => ['h']) ['s'] 1700000000) = true ∧
    internalKeyValidate (fun _ => ['h']) ['s'] (1700000000 + 6)
        (internalKeyGen (fun _ => ['h']) ['s'] 1700000000) = false :=
  internalKey_window (fun _ => ['h']) (fun s => by show ':' ∉ ['h']; decide) ['s'] 1700000000 5 (by decide)

/-- C7 counterexample: the claim says a token whose embedded timestamp
lies more than 5 seconds in the future of the validator's clock is
rejected; here a token stamped 100 seconds in the future (generated at
1100, validated at 1000) is accepted, because line 199 only checks
`now - int(sTime) > 5`. -/
theorem internalKey_accepts_future :
    internalKeyValidate (fun _ => ['h']) ['s'] 1000
      (internalKeyGen (fun _ => ['h']) ['s'] 1100) = true := rfl

/-- C7 amended: validation rejects a well-formed token exactly when its
embedded timestamp is more than 5 seconds in the *past* of the
validator's clock; a token with a future timestamp, arbitrarily far
ahead, passes the time check and is accepted when its digest matches. -/
theorem internalKey_rejects_past_only (H : List Char → List Char) (hH : ∀ s, ':' ∉ H s)
    (salt : List Char) (T d : Nat) :
    (5 < d → internalKeyValidate H salt (T + d) (internalKeyGen H salt T) = false) ∧
    internalKeyValidate H salt T (internalKeyGen H salt (T + d)) = true := by
  constructor
  · intro h5
    have hsplit := splitChar_key hH salt T
    simp only [internalKeyValidate, hsplit, digitsToNat_natDigits]
    rw [if_pos (by push_cast; omega)]
  · have hsplit := splitChar_key hH salt (T + d)
    simp only [internalKeyValidate, hsplit, digitsToNat_natDigits]
    rw [if_neg (by push_cast; omega)]
    simp

/-- C7 amended witness: at a concrete secret, hash and time, a token 6
seconds old is rejected and a token stamped 50 seconds ahead is
accepted. -/
theorem internalKey_rejects_past_only_witness :
    internalKeyValidate (fun _ => ['h']) ['s'] (2000 + 6)
        (internalKeyGen (fun _ => ['h']) ['s'] 2000) = false ∧
    internalKeyValidate (fun _ => ['h']) ['s'] 2000
        (internalKeyGen (fun _ => ['h']) ['s'] (2000 + 50)) = true :=
  ⟨(internalKey_rejects_past_only (fun _ => ['h']) (fun s => by show ':' ∉ ['h']; decide) ['s'] 2000 6).1
      (by decide),
   (internalKey_rejects_past_only (fun _ => ['h']) (fun s => by show ':' ∉ ['h']; decide) ['s'] 2000 50).2⟩

/-- C1: the serialization round trip is the identity on every envelope.
`Effect.toDict` is `__str__` up to the stdlib `json.dumps`, and
`Effect.fromDict` is the inverse applied by `fromJSON` after the stdlib
`json.loads`; the stdlib codec is the identity on these finite JSON
objects of JSON-representable values, so for any combination of
present/absent attributes the set of present attributes and their values
is reproduced exactly, and an absent attribute stays absent (it is never
emitted, so it can never come back as null). -/
theorem effect_toDict_fromDict (e : Effect) :
    Effect.fromDict (Effect.toDict e) = e := by
  obtain ⟨d, er, w⟩ := e
  cases d <;> cases er <;> cases w <;> rfl

/-- C2 counterexample: the claim says an error argument that is none of
the five accepted shapes fails with `ValueError('error')`, but an
`Exception` whose single argument is the integer 5 (a fault *not*
wrapping an envelope, hence outside the five shapes) is accepted and
normalized to `{code: 5, msg: ''}` by lines 382-383. -/
theorem effect_init_exc_nonEnvelope_succeeds :
    Effect.init .none (.exc [.int 5]) .none =
      .ok ⟨Option.none, some (.dict [("code", .int 5), ("msg", .str "")]), Option.none⟩ := rfl

/-- C2 amended: the five accepted error shapes normalize exactly as the
claim states — integer `n` to `{code: n, msg: ''}`, string `s` to
`{code: 0, msg: s}`, pair `(c, m)` to `{code: c, msg: m}`, a structured
mapping stored as-is, and a fault wrapping an envelope (that has an error
attribute) copies that error through unchanged — and an error of any
other shape that is not an exception object fails with
`ValueError('error')` (an exception not wrapping an envelope is instead
normalized from its `args`, see the counterexample). -/
theorem effect_init_shapes :
    (∀ n : Int, Effect.init .none (.int n) .none =
      .ok ⟨Option.none, some (.dict [("code", .int n), ("msg", .str "")]), Option.none⟩) ∧
    (∀ s : String, Effect.init .none (.str s) .none =
      .ok ⟨Option.none, some (.dict [("code", .int 0), ("msg", .str s)]), Option.none⟩) ∧
    (∀ a b : PyVal, Effect.init .none (.tuple [a, b]) .none =
      .ok ⟨Option.none, some (.dict [("code", a), ("msg", b)]), Option.none⟩) ∧
    (∀ kvs, Effect.init .none (.dict kvs) .none =
      .ok ⟨Option.none, some (.dict kvs), Option.none⟩) ∧
    (∀ dd ww er, Effect.init .none (.exc [.effect dd (some er) ww]) .none =
      .ok ⟨Option.none, some er, Option.none⟩) ∧
    (∀ xs, Effect.init .none (.list xs) .none = .error (.valueError ["error"])) ∧
    (∀ dd er ww, Effect.init .none (.effect dd er ww) .none =
      .error (.valueError ["error"])) :=
  ⟨fun n => rfl, fun s => rfl, fun a b => rfl, fun kvs => rfl, fun dd ww er => rfl,
   fun xs => rfl, fun dd er ww => rfl⟩

/-- C5 counterexample: the claim says every path whose last character is
a separator is a contract violation / no match, but `"a__"` — whose last
character is the separator `'_'` — resolves successfully: the first `'_'`
is consumed as a separator and the final `'_'` is merely the upper-cased
following character, giving the legal method name `"a__create"`. -/
theorem pathToMethod_trailing_sep_resolves :
    pathToMethod "a__" "_create" = .ok "a__create" := rfl

/-- C5 amended: the path-to-method transformation scans left to right,
drops each `/` or `_` reached as a separator and upper-cases the
immediately following character, passes every other character through
unchanged (so `"user/permission" → "userPermission"`, `"a_b" → "aB"`,
`"noop" → "noop"`); a path in which the scan reaches a separator at the
final position (no following character to upper-case) is a contract
violation — an `IndexError` — rather than a successful resolution, but a
trailing separator that is itself the upper-cased successor of a
preceding separator passes through. -/
theorem pathToMethod_rule :
    pathToMethod "user/permission" "" = .ok "userPermission" ∧
    pathToMethod "a_b" "" = .ok "aB" ∧
    pathToMethod "noop" "" = .ok "noop" ∧
    ptmScan [] = .ok [] ∧
    (∀ c, (c = '/' ∨ c = '_') →
      ptmScan [c] = .error (.indexError "string index out of range")) ∧
    (∀ c d ds, (c = '/' ∨ c = '_') →
      ptmScan (c :: d :: ds) = (ptmScan ds).map (fun r => d.toUpper :: r)) ∧
    (∀ c cs, ¬(c = '/' ∨ c = '_') →
      ptmScan (c :: cs) = (ptmScan cs).map (fun r => c :: r)) ∧
    (∀ p a, pathToMethod p a = (ptmScan p.data).map (fun l => String.mk l ++ a)) := by
  refine ⟨rfl, rfl, rfl, rfl, ?_, ?_, ?_, fun p a => rfl⟩
  · intro c hc
    simp only [ptmScan, if_pos hc]
  · intro c d ds hc
    simp only [ptmScan, if_pos hc]
  · intro c cs hc
    cases cs <;> simp only [ptmScan, if_neg hc]

/-- C5 amended witness: the scanning equations at concrete characters. -/
theorem pathToMethod_rule_witness :
    ptmScan ['/'] = .error (.indexError "string index out of range") ∧
    ptmScan ['_', 'b'] = (ptmScan []).map (fun r => 'b'.toUpper :: r) ∧
    ptmScan ['x', 'y'] = (ptmScan ['y']).map (fun r => 'x' :: r) :=
  ⟨pathToMethod_rule.2.2.2.2.1 '/' (Or.inl rfl),
   pathToMethod_rule.2.2.2.2.2.1 '_' 'b' [] (Or.inr rfl),
   pathToMethod_rule.2.2.2.2.2.2.1 'x' ['y'] (by decide)⟩

/-- C3 counterexample: the claim says the unregistered-service fault is
the only condition the router surfaces as a propagating fault rather than
inside an envelope; here `"svc"` *is* registered (first conjunct), the
remote peer answers 200 with the right content type but a malformed JSON
body, and the call still propagates a fault — the `ValueError('val', …)`
re-raised by `Effect.fromJSON` at line 489 — instead of returning an
envelope. -/
theorem request_registered_fault_propagates :
    List.lookup "svc" [("svc", Registration.url "http://h")] =
      some (Registration.url "http://h") ∧
    request
        (fun _ _ _ _ =>
          .ok ⟨200, "", some "application/json; charset=utf-8", .error "Expecting value"⟩)
        (fun _ _ _ _ _ => ⟨Option.none, Option.none, Option.none⟩)
        [("svc", Registration.url "http://h")] "svc" "read" "/p" .none Option.none =
      .error (.valueError ["val", "Expecting value"]) := ⟨rfl, rfl⟩

/-- C3 amended: a call naming an unregistered service raises
`EffectException` carrying the normalized
`(SERVICE_NOT_REGISTERED, service)` error — it propagates to the caller
rather than being absorbed into a returned envelope.  (It is not the
*only* propagating fault: a malformed remote response body propagates
`ValueError`, a missing response `Content-Type` header and — through the
missing `return` at line 78 — an unknown action on a remote service
propagate `KeyError`.) -/
theorem request_unregistered (http : String → String → PyVal → Option String → HttpResult)
    (dispatch : Nat → String → String → PyVal → Option String → Effect)
    (registry : List (String × Registration)) (service action path : String)
    (data : PyVal) (sesh : Option String)
    (h : List.lookup service registry = Option.none) :
    request http dispatch registry service action path data sesh =
      .error (.effectException Option.none
        (some (.dict [("code", .int Errors.SERVICE_NOT_REGISTERED), ("msg", .str service)]))
        Option.none) := by
  simp only [request, h]
  rfl

/-- C3 amended witness: the unregistered fault at a concrete empty
registry. -/
theorem request_unregistered_witness :
    request (fun _ _ _ _ => .connErr "")
        (fun _ _ _ _ _ => ⟨Option.none, Option.none, Option.none⟩)
        [] "auth" "read" "/p" .none Option.none =
      .error (.effectException Option.none
        (some (.dict [("code", .int Errors.SERVICE_NOT_REGISTERED), ("msg", .str "auth")]))
        Option.none) :=
  request_unregistered _ _ _ _ _ _ _ _ rfl

/-- C4: the claim says a dispatch to a registered remote service with an
unknown action returns an envelope with error kind `SERVICE_ACTION`; the
code instead raises `KeyError` — line 78 constructs that envelope but
lacks a `return`, so control falls through to the `__funcToRequest[action]`
lookup at line 102, whose `KeyError` nothing catches.  This theorem
evaluates the router at the failing input. -/
theorem request_unknown_action_keyError :
    request (fun _ _ _ _ => .connErr "")
        (fun _ _ _ _ _ => ⟨Option.none, Option.none, Option.none⟩)
        [("svc", Registration.url "u")] "svc" "foo" "/p" .none Option.none =
      .error (.keyError "foo") := rfl

/-- C9: a remote call whose HTTP response has a status other than 200
returns (does not raise) an envelope whose error is the normalized
`(SERVICE_STATUS, '<status>: <body>')` pair, for any registered remote
service, any known action, any transport outcome with that status. -/
theorem request_service_status (http : String → String → PyVal → Option String → HttpResult)
    (dispatch : Nat → String → String → PyVal → Option String → Effect)
    (registry : List (String × Registration)) (service action path : String)
    (data : PyVal) (sesh : Option String) (u verb : String) (r : HttpResponse)
    (hreg : List.lookup service registry = some (.url u))
    (hact : funcToRequest action = some verb)
    (hhttp : http verb (u ++ path) data sesh = .ok r)
    (hstatus : r.status_code ≠ 200) :
    request http dispatch registry service action path data sesh =
      .ok ⟨Option.none,
        some (.dict [("code", .int Errors.SERVICE_STATUS),
                     ("msg", .str (toString r.status_code ++ ": " ++ r.content))]),
        Option.none⟩ := by
  simp only [request, hreg, hact, hhttp, if_pos hstatus]
  rfl

/-- C9 witness: a 500 response with body `"boom"` yields the envelope
with error `{code: SERVICE_STATUS, msg: "500: boom"}`. -/
theorem request_service_status_witness :
    request (fun _ _ _ _ => .ok ⟨500, "boom", some "text/html", .error "x"⟩)
        (fun _ _ _ _ _ => ⟨Option.none, Option.none, Option.none⟩)
        [("svc", Registration.url "http://h")] "svc" "read" "/p" .none Option.none =
      .ok ⟨Option.none,
        some (.dict [("code", .int Errors.SERVICE_STATUS), ("msg", .str "500: boom")]),
        Option.none⟩ := by
  have h := request_service_status
    (fun _ _ _ _ => .ok ⟨500, "boom", some "text/html", .error "x"⟩)
    (fun _ _ _ _ _ => ⟨Option.none, Option.none, Option.none⟩)
    [("svc", Registration.url "http://h")] "svc" "read" "/p" .none Option.none
    "http://h" "GET" ⟨500, "boom", some "text/html", .error "x"⟩
    rfl rfl rfl (by decide)
  exact h

/-- C8 counterexample: the claim says the registry entry stored for a
local binding is the value returned by the handler's one-time
initialization hook; here the hook of handler `0` returns the distinct
(decorated) handler `1`, yet the registry stores handler `0` — line 264
stores `v` and line 270 calls `v.initialise()` discarding its return. -/
theorem register_discards_initialise_result :
    (register (fun j => j + 1) ⟨Option.none, []⟩ [("a", .srv 0)] [] "s").1.registered =
      [("a", Registration.inst 0)] ∧
    (fun j => j + 1) 0 ≠ 0 := ⟨rfl, by decide⟩

/-- C8 amended: for every binding of a service name to a concrete
handler, the registry entry stored is the handler originally passed; the
handler's one-time initialization hook is invoked during registration
(once, recorded in the trace) but its return value is discarded — the
result does not depend on `initOf` at all.  For the base implementation,
whose hook returns the handler itself, this coincides with the claim. -/
theorem register_stores_passed_handler (initOf : Nat → Nat) (st : RegState)
    (k : String) (i : Nat) (restconf : List (String × String)) (salt : String) :
    register initOf st [(k, .srv i)] restconf salt =
      (⟨some salt, insertReg st.registered k (.inst i)⟩, [i], Option.none) := rfl

/-- Classifies a binding `register` processes without raising: a local
instance always succeeds; `None` succeeds when the remote config has the
name; anything else fails. -/
def isOkBinding (restconf : List (String × String)) : String × SVal → Bool
  | (_, .srv _) => true
  | (k, .none_) => (List.lookup k restconf).isSome
  | (_, .other) => false

/-- Classifies a binding on which `register` raises
`ValueError('services.<k>')`: `None` without a remote-config entry, or an
invalid shape. -/
def isFailBinding (restconf : List (String × String)) : String × SVal → Bool
  | (_, .srv _) => false
  | (k, .none_) => (List.lookup k restconf).isNone
  | (_, .other) => true

/-- The registry contents after successfully processing a list of
bindings: each local instance and each configured remote URL is stored in
order. -/
def applyOk (regs : List (String × Registration)) (restconf : List (String × String)) :
    List (String × SVal) → List (String × Registration)
  | [] => regs
  | (k, .srv i) :: rest => applyOk (insertReg regs k (.inst i)) restconf rest
  | (k, .none_) :: rest =>
    match List.lookup k restconf with
    | some u => applyOk (insertReg regs k (.url u)) restconf rest
    | Option.none => regs
  | (_, .other) :: _ => regs

/-- The `initialise` calls made while processing a list of bindings: one
per local instance, in order. -/
def initTrace : List (String × SVal) → List Nat
  | [] => []
  | (_, .srv i) :: rest => i :: initTrace rest
  | _ :: rest => initTrace rest

theorem registerLoop_fail_after_valid (initOf : Nat → Nat) (saltv : Option String)
    (k : String) (v : SVal) (restconf : List (String × String)) :
    ∀ (pre : List (String × SVal)) (regs : List (String × Registration)) (tr : List Nat),
    (∀ p ∈ pre, isOkBinding restconf p = true) →
    isFailBinding restconf (k, v) = true →
    registerLoop initOf ⟨saltv, regs⟩ tr (pre ++ [(k, v)]) restconf =
      (⟨saltv, applyOk regs restconf pre⟩, tr ++ initTrace pre,
        some (.valueError ["services." ++ k])) := by
  intro pre
  induction pre with
  | nil =>
    intro regs tr _ hfail
    simp only [List.nil_append, applyOk, initTrace, List.append_nil]
    cases v with
    | srv i => simp [isFailBinding] at hfail
    | none_ =>
      have hlk : List.lookup k restconf = Option.none := by
        simpa [isFailBinding, Option.isNone_iff_eq_none] using hfail
      simp [registerLoop, hlk]
    | other => simp [registerLoop]
  | cons p rest ih =>
    intro regs tr hpre hfail
    obtain ⟨pk, pv⟩ := p
    have hp := hpre (pk, pv) (List.mem_cons_self _ _)
    have hrest : ∀ q ∈ rest, isOkBinding restconf q = true :=
      fun q hq => hpre q (List.mem_cons_of_mem _ hq)
    cases pv with
    | srv i =>
      have hstep : registerLoop initOf ⟨saltv, regs⟩ tr (((pk, SVal.srv i) :: rest) ++ [(k, v)]) restconf =
          registerLoop initOf ⟨saltv, insertReg regs pk (.inst i)⟩ (tr ++ [i])
            (rest ++ [(k, v)]) restconf := by
        simp [registerLoop]
      rw [hstep, ih (insertReg regs pk (.inst i)) (tr ++ [i]) hrest hfail]
      simp [applyOk, initTrace]
    | none_ =>
      obtain ⟨u, hu⟩ : ∃ u, List.lookup pk restconf = some u := by
        cases hlk : List.lookup pk restconf with
        | none => simp [isOkBinding, hlk] at hp
        | some u => exact ⟨u, rfl⟩
      have hstep : registerLoop initOf ⟨saltv, regs⟩ tr (((pk, SVal.none_) :: rest) ++ [(k, v)]) restconf =
          registerLoop initOf ⟨saltv, insertReg regs pk (.url u)⟩ tr
            (rest ++ [(k, v)]) restconf := by
        simp [registerLoop, hu]
      rw [hstep, ih (insertReg regs pk (.url u)) tr hrest hfail]
      simp [applyOk, initTrace, hu]
    | other => simp [isOkBinding] at hp

/-- C10: `register` is not atomic on failure.  The process-wide secret is
set to the passed salt before any binding is validated (line 248), and
bindings are processed one at a time, so when a failing binding (a name
bound to `None` with no remote-config entry, or an invalid shape) follows
any prefix of valid bindings, the raised `ValueError` leaves the secret
replaced and every binding of the prefix already registered (and hence
routable by `request`, which consults the same registry). -/
theorem register_partial_failure (initOf : Nat → Nat) (st : RegState)
    (pre : List (String × SVal)) (k : String) (v : SVal)
    (restconf : List (String × String)) (salt : String)
    (hpre : ∀ p ∈ pre, isOkBinding restconf p = true)
    (hfail : isFailBinding restconf (k, v) = true) :
    register initOf st (pre ++ [(k, v)]) restconf salt =
      (⟨some salt, applyOk st.registered restconf pre⟩, initTrace pre,
        some (.valueError ["services." ++ k])) := by
  unfold register
  rw [registerLoop_fail_after_valid initOf (some salt) k v restconf pre st.registered []
    hpre hfail]
  simp

/-- C10 witness: registering a local instance, a configured remote, then
a `None` binding with no config entry fails with `ValueError
('services.c')` but keeps the new salt, the stored prefix and the
`initialise` trace. -/
theorem register_partial_failure_witness :
    register (fun j => j) ⟨Option.none, []⟩
        ([("a", .srv 7), ("b", .none_)] ++ [("c", .none_)]) [("b", "http://b")] "salt" =
      (⟨some "salt", applyOk [] [("b", "http://b")] [("a", .srv 7), ("b", .none_)]⟩,
        initTrace [("a", .srv 7), ("b", .none_)], some (.valueError ["services.c"])) :=
  register_partial_failure (fun j => j) ⟨Option.none, []⟩ [("a", .srv 7), ("b", .none_)]
    "c" .none_ [("b", "http://b")] "salt" (by decide) (by decide)
